import Mathlib

/-!
Verification of the HTTP request handlers of this repository:

* `api/remove_bg.py`   — serverless background-removal endpoint (`handler.do_POST`,
  `handler.do_OPTIONS`, `handler._send_response`, `handler._send_error`,
  `handler._send_cors_headers`, and the module-level `REMBG_AVAILABLE` flag);
* `api/images_to_glb.py` — serverless 3D-conversion placeholder endpoint;
* `local_bg_server.py` — Flask local mirror (`remove_background`, `health`).

The embedding is shallow.  JSON values (`json.loads` results / `jsonify`
arguments) are the inductive `JVal`; Python dicts keep insertion order and a
duplicate key from JSON keeps the last value, so objects are association lists
with a last-wins lookup.  The external capabilities — `PIL.Image.open`,
`rembg.remove`, and `Image.save(format='PNG')` — are opaque parameters
collected in `BgCaps`.  The Python standard-library calls the handlers make
(`in`, subscription, `str.split`, `base64.b64decode`, `base64.b64encode`) are
modelled concretely, including the exceptions they raise: a raised exception is
an `Except.error` carrying `str(e)`, which the handlers interpolate into their
error bodies.  Reading the request body and parsing it with
`json.loads` / `request.get_json()` happens before the code under
verification branches on the result, so a handler takes the outcome of that
parse (`Except String JVal`) as input.
-/

/-- A JSON value as produced by Python's `json.loads`: `None`, `bool`, a
number, `str`, `list`, or `dict` (an insertion-ordered association list). -/
inductive JVal where
  | null : JVal
  | bool : Bool → JVal
  | num : Int → JVal
  | str : String → JVal
  | arr : List JVal → JVal
  | obj : List (String × JVal) → JVal

/-- Whether a `JVal` is a JSON string (a Python `str`). -/
def JVal.isStr : JVal → Bool
  | .str _ => true
  | _ => false

/-- Lookup in a Python dict built from a JSON object: with a duplicated key,
`json.loads` keeps the value of the last occurrence. -/
def dictLookup (kvs : List (String × JVal)) (k : String) : Option JVal :=
  match kvs.reverse.find? (fun p => p.1 == k) with
  | some p => some p.2
  | none => none

/-- Python `t in xs` for a list `xs` and a `str` `t`: membership by `==`,
which between a `str` and a non-`str` JSON value is `False`. -/
def listHasStr (xs : List JVal) (t : String) : Bool :=
  xs.any (fun x => match x with | .str u => u == t | _ => false)

/-- Python `needle in hay` for two strings: substring containment. -/
def listContainsSub (needle : List Char) : List Char → Bool
  | [] => needle.isEmpty
  | c :: rest => needle.isPrefixOf (c :: rest) || listContainsSub needle rest

/-- Python `t in v` for a `str` `t` and a JSON value `v`: key membership for a
dict, element membership for a list, substring test for a `str`, and a
`TypeError` (modelled as `Except.error str(e)`) for the non-iterable values
`None`, `bool`, and numbers. -/
def pyContains (t : String) : JVal → Except String Bool
  | .obj kvs => .ok (dictLookup kvs t).isSome
  | .arr xs => .ok (listHasStr xs t)
  | .str s => .ok (listContainsSub t.data s.data)
  | .null => .error "argument of type 'NoneType' is not iterable"
  | .bool _ => .error "argument of type 'bool' is not iterable"
  | .num _ => .error "argument of type 'int' is not iterable"

/-- Python `v[k]` for a `str` key `k`: dict lookup (a `KeyError` for an absent
key), and a `TypeError` for every other JSON value. -/
def pyGetItem (v : JVal) (k : String) : Except String JVal :=
  match v with
  | .obj kvs =>
    match dictLookup kvs k with
    | some x => .ok x
    | none => .error ("'" ++ k ++ "'")
  | .arr _ => .error "list indices must be integers or slices, not str"
  | .str _ => .error "string indices must be integers, not 'str'"
  | .null => .error "'NoneType' object is not subscriptable"
  | .bool _ => .error "'bool' object is not subscriptable"
  | .num _ => .error "'int' object is not subscriptable"

/-- Python `s.split(',')` on the character list of a string: the comma-separated
fields, in order, empty fields included. -/
def splitComma : List Char → List (List Char)
  | [] => [[]]
  | c :: rest =>
    if c = ',' then [] :: splitComma rest
    else
      match splitComma rest with
      | [] => [[c]]
      | g :: gs => (c :: g) :: gs

/-- Lines 44–48 of `api/remove_bg.py` (and 38–42 of `local_bg_server.py`), on
the character list: `if ',' in image_data: image_data = image_data.split(',')[1]`. -/
def pyStripL (cs : List Char) : List Char :=
  if cs.contains ',' then (splitComma cs).getD 1 [] else cs

/-- The string actually passed to `base64.b64decode` by the handlers, for a
`str`-valued `imageData`. -/
def pyStrip (s : String) : String := String.mk (pyStripL s.data)

/-- The value of a character in the standard base64 alphabet, `none` for a
character outside it. -/
def b64CharVal (c : Char) : Option Nat :=
  if 'A' ≤ c ∧ c ≤ 'Z' then some (c.toNat - 65)
  else if 'a' ≤ c ∧ c ≤ 'z' then some (c.toNat - 71)
  else if '0' ≤ c ∧ c ≤ '9' then some (c.toNat + 4)
  else if c = '+' then some 62
  else if c = '/' then some 63
  else none

/-- First output byte of a base64 quad: the 6 bits of `a` and the top 2 of `b`. -/
def b64Byte1 (a b : Nat) : Nat := a * 4 + b / 16

/-- Second output byte of a base64 quad: the low 4 bits of `b` and the top 4 of `c`. -/
def b64Byte2 (b c : Nat) : Nat := b % 16 * 16 + c / 4

/-- Third output byte of a base64 quad: the low 2 bits of `c` and the 6 bits of `d`. -/
def b64Byte3 (c d : Nat) : Nat := c % 4 * 64 + d

/-- The bytes of a final, padded partial quad of 2 or 3 data characters. -/
def b64Flush : List Nat → List Nat
  | [a, b] => [b64Byte1 a b]
  | [a, b, c] => [b64Byte1 a b, b64Byte2 b c]
  | _ => []

/-- The scanning loop of CPython's `binascii.a2b_base64` in its default
non-strict mode, as `base64.b64decode` calls it: characters outside the
alphabet are skipped; `=` is skipped while fewer than 2 data characters are
pending, and otherwise counts as padding; a data character discards pending
padding; once pending data plus padding reach a full quad the pending group is
flushed and the rest of the input is ignored.  At the end of input, one
leftover data character is the "cannot be 1 more" error and two or three are
"Incorrect padding".  `quad` holds the pending 6-bit values, `pads` the pending
padding count, `cnt` the number of data characters consumed (for the error
message), `acc` the output bytes. -/
def b64Loop : List Char → List Nat → Nat → Nat → List Nat → Except String (List Nat)
  | [], quad, _, cnt, acc =>
    match quad with
    | [] => .ok acc
    | [_] => .error ("Invalid base64-encoded string: number of data characters (" ++
        toString cnt ++ ") cannot be 1 more than a multiple of 4")
    | _ => .error "Incorrect padding"
  | ch :: rest, quad, pads, cnt, acc =>
    if ch = '=' then
      if quad.length < 2 then b64Loop rest quad pads cnt acc
      else if 4 ≤ quad.length + pads + 1 then .ok (acc ++ b64Flush quad)
      else b64Loop rest quad (pads + 1) cnt acc
    else
      match b64CharVal ch with
      | none => b64Loop rest quad pads cnt acc
      | some v =>
        match quad with
        | [a, b, c] => b64Loop rest [] 0 (cnt + 1)
            (acc ++ [b64Byte1 a b, b64Byte2 b c, b64Byte3 c v])
        | q => b64Loop rest (q ++ [v]) 0 (cnt + 1) acc

/-- Python `base64.b64decode` on a `str` argument (default `validate=False`).
The `str` path first runs `s.encode('ascii')`: any character above U+007F
raises `ValueError('string argument should contain only ASCII characters')`
before any decoding; only then does the non-strict `binascii` scan run, which
skips non-alphabet ASCII characters. -/
def b64decode (s : String) : Except String (List Nat) :=
  if s.data.all (fun c => c.toNat < 128) then b64Loop s.data [] 0 0 []
  else .error "string argument should contain only ASCII characters"

/-- The character at a 6-bit value in the standard base64 alphabet. -/
def b64EncChar (n : Nat) : Char :=
  if n < 26 then Char.ofNat (65 + n)
  else if n < 52 then Char.ofNat (97 + (n - 26))
  else if n < 62 then Char.ofNat (48 + (n - 52))
  else if n = 62 then '+'
  else '/'

/-- Standard base64 encoding of a byte list, with `=` padding. -/
def b64EncodeL : List Nat → List Char
  | [] => []
  | [a] => [b64EncChar (a / 4), b64EncChar (a % 4 * 16), '=', '=']
  | [a, b] => [b64EncChar (a / 4), b64EncChar (a % 4 * 16 + b / 16),
      b64EncChar (b % 16 * 4), '=']
  | a :: b :: c :: rest =>
    b64EncChar (a / 4) :: b64EncChar (a % 4 * 16 + b / 16) ::
      b64EncChar (b % 16 * 4 + c / 64) :: b64EncChar (c % 64) :: b64EncodeL rest

/-- Python `base64.b64encode(bytes).decode('utf-8')`. -/
def b64encode (bytes : List Nat) : String := String.mk (b64EncodeL bytes)

/-- Lines 44–48 of `api/remove_bg.py` (lines 38–42 of `local_bg_server.py`)
applied to the value of `data['imageData']`: the comma test, the
data-URI-prefix split, and `base64.b64decode`.  On a `str` this strips via
`pyStrip` and decodes; on every other JSON value one of the three steps raises
(`TypeError` from `','` `in`, `AttributeError` from `.split`, or `TypeError`
from `b64decode`), modelled as the corresponding `Except.error`. -/
def stripAndDecode (v : JVal) : Except String (List Nat) :=
  match v with
  | .str s => b64decode (pyStrip s)
  | .arr xs =>
    if listHasStr xs "," then .error "'list' object has no attribute 'split'"
    else .error "argument should be a bytes-like object or ASCII string, not 'list'"
  | .obj kvs =>
    if (dictLookup kvs ",").isSome then .error "'dict' object has no attribute 'split'"
    else .error "argument should be a bytes-like object or ASCII string, not 'dict'"
  | .null => .error "argument of type 'NoneType' is not iterable"
  | .bool _ => .error "argument of type 'bool' is not iterable"
  | .num _ => .error "argument of type 'int' is not iterable"

/-- An HTTP response as a handler builds it: the status set by
`send_response` / the Flask return value (`none` when the handler never sets
one), the headers the handler itself emits, and the JSON body it writes
(`none` when it writes no body). -/
structure HttpResponse where
  status : Option Nat
  headers : List (String × String)
  body : Option JVal

/-- The opaque external image capabilities, over an abstract bitmap type
`Img`: `PIL.Image.open` on decoded bytes (raising, e.g. for bytes that are no
image, is `Except.error str(e)`), `rembg.remove`, and PNG serialization via
`Image.save(format='PNG')` plus `getvalue()`. -/
structure BgCaps (Img : Type) where
  imageOpen : List Nat → Except String Img
  remove : Img → Img
  savePNG : Img → List Nat

/-- The three CORS headers of `handler._send_cors_headers`, identical in
`api/remove_bg.py` and `api/images_to_glb.py`. -/
def send_cors_headers : List (String × String) :=
  [("Access-Control-Allow-Origin", "*"),
   ("Access-Control-Allow-Methods", "POST, OPTIONS"),
   ("Access-Control-Allow-Headers", "Content-Type")]

/-- The serverless `handler._send_response`, identical in both `api` files:
status, the CORS headers, `Content-Type: application/json`, and the JSON body. -/
def send_response (status : Nat) (data : JVal) : HttpResponse :=
  { status := some status
    headers := send_cors_headers ++ [("Content-Type", "application/json")]
    body := some data }

/-- The body `{'success': False, 'error': message}` built by the serverless
`handler._send_error` and, verbatim, by the error returns of
`local_bg_server.remove_background`. -/
def errorBody (message : String) : JVal :=
  .obj [("success", JVal.bool false), ("error", JVal.str message)]

/-- The serverless `handler._send_error`, identical in both `api` files. -/
def send_error (status : Nat) (message : String) : HttpResponse :=
  send_response status (errorBody message)

namespace remove_bg

/-- Status and JSON body produced by `handler.do_POST` of `api/remove_bg.py`:
the `REMBG_AVAILABLE` gate, then — on the parsed request body — the
`'imageData' not in data` test, `data['imageData']`, the prefix strip and
`b64decode`, `Image.open`, `remove`, PNG re-encoding and the success body; any
raised exception `e` is caught and answered as
`500 / 'Processing failed: ' + str(e)`.  Every branch exits through
`_send_response`, which `do_POST` below applies. -/
def do_POST_core {Img : Type} (caps : BgCaps Img) (rembg_available : Bool)
    (body : Except String JVal) : Nat × JVal :=
  if rembg_available then
    match body with
    | .error e => (500, errorBody ("Processing failed: " ++ e))
    | .ok data =>
      match pyContains "imageData" data with
      | .error e => (500, errorBody ("Processing failed: " ++ e))
      | .ok false => (400, errorBody "Missing imageData in request")
      | .ok true =>
        match pyGetItem data "imageData" with
        | .error e => (500, errorBody ("Processing failed: " ++ e))
        | .ok image_data =>
          match stripAndDecode image_data with
          | .error e => (500, errorBody ("Processing failed: " ++ e))
          | .ok image_bytes =>
            match caps.imageOpen image_bytes with
            | .error e => (500, errorBody ("Processing failed: " ++ e))
            | .ok input_image =>
              (200, JVal.obj
                [("success", JVal.bool true),
                 ("processedImageData", JVal.str ("data:image/png;base64," ++
                    b64encode (caps.savePNG (caps.remove input_image)))),
                 ("message", JVal.str "Background removed successfully")])
  else (500, errorBody "rembg package not available")

/-- `handler.do_POST` of `api/remove_bg.py`. -/
def do_POST {Img : Type} (caps : BgCaps Img) (rembg_available : Bool)
    (body : Except String JVal) : HttpResponse :=
  send_response (do_POST_core caps rembg_available body).1
    (do_POST_core caps rembg_available body).2

/-- `handler.do_OPTIONS` of `api/remove_bg.py`: it calls `_send_cors_headers`
and `end_headers` but never `send_response`, so no status is set and no body
is written. -/
def do_OPTIONS : HttpResponse :=
  { status := none, headers := send_cors_headers, body := none }

end remove_bg

namespace images_to_glb

/-- Status and JSON body of `handler.do_POST` of `api/images_to_glb.py`: a
body that read and parsed gets the fixed 501 placeholder answer; an exception
while reading or parsing (`int(None)`, `json.loads`) is caught and answered as
`500 / str(e)` by `_send_error`. -/
def do_POST_core (body : Except String JVal) : Nat × JVal :=
  match body with
  | .error e => (500, errorBody e)
  | .ok _ =>
    (501, JVal.obj
      [("success", JVal.bool false),
       ("error", JVal.str "Not implemented"),
       ("message", JVal.str "TRELLIS integration coming soon. Use direct GLB upload for now.")])

/-- `handler.do_POST` of `api/images_to_glb.py`. -/
def do_POST (body : Except String JVal) : HttpResponse :=
  send_response (do_POST_core body).1 (do_POST_core body).2

/-- `handler.do_OPTIONS` of `api/images_to_glb.py`: CORS headers, no
`send_response`, no body — textually identical to the one in
`api/remove_bg.py`. -/
def do_OPTIONS : HttpResponse :=
  { status := none, headers := send_cors_headers, body := none }

end images_to_glb

namespace local_bg_server

/-- The request method of the Flask route `/api/remove_bg` of
`local_bg_server.py`, which accepts `POST` and `OPTIONS`. -/
inductive Method where
  | OPTIONS : Method
  | POST : Method

/-- A Flask `jsonify(data), status` return value.  Response headers are added
by the external `flask_cors` middleware, not by this repository's code, so
none are modelled. -/
def jsonify (status : Nat) (data : JVal) : HttpResponse :=
  { status := some status, headers := [], body := some data }

/-- Status and JSON body of the `POST` path of `remove_background` of
`local_bg_server.py` (lines 26–75): line for line the same computation as
`remove_bg.do_POST_core`, without the `REMBG_AVAILABLE` gate (the local server
imports `rembg` unconditionally at module load). -/
def remove_background_core {Img : Type} (caps : BgCaps Img)
    (body : Except String JVal) : Nat × JVal :=
  match body with
  | .error e => (500, errorBody ("Processing failed: " ++ e))
  | .ok data =>
    match pyContains "imageData" data with
    | .error e => (500, errorBody ("Processing failed: " ++ e))
    | .ok false => (400, errorBody "Missing imageData in request")
    | .ok true =>
      match pyGetItem data "imageData" with
      | .error e => (500, errorBody ("Processing failed: " ++ e))
      | .ok image_data =>
        match stripAndDecode image_data with
        | .error e => (500, errorBody ("Processing failed: " ++ e))
        | .ok image_bytes =>
          match caps.imageOpen image_bytes with
          | .error e => (500, errorBody ("Processing failed: " ++ e))
          | .ok input_image =>
            (200, JVal.obj
              [("success", JVal.bool true),
               ("processedImageData", JVal.str ("data:image/png;base64," ++
                  b64encode (caps.savePNG (caps.remove input_image)))),
               ("message", JVal.str "Background removed successfully")])

/-- `remove_background` of `local_bg_server.py`: `OPTIONS` returns `('', 200)`
(status 200, empty body); `POST` returns the core result through `jsonify`,
whose default status is 200 and which the error branches override with 400
or 500. -/
def remove_background {Img : Type} (caps : BgCaps Img) (method : Method)
    (body : Except String JVal) : HttpResponse :=
  match method with
  | .OPTIONS => { status := some 200, headers := [], body := none }
  | .POST =>
    jsonify (remove_background_core caps body).1 (remove_background_core caps body).2

/-- `health` of `local_bg_server.py`: `GET /health`. -/
def health : HttpResponse :=
  jsonify 200 (JVal.obj
    [("status", JVal.str "ok"),
     ("message", JVal.str "Background removal server is running")])

end local_bg_server

/-- Field `k` of the JSON object body of a response, `none` when the response
has no JSON-object body. -/
def respField (r : HttpResponse) (k : String) : Option JVal :=
  match r.body with
  | some (.obj kvs) => dictLookup kvs k
  | _ => none

/-- The response carries the three CORS headers the spec requires. -/
def corsOk (r : HttpResponse) : Prop :=
  ("Access-Control-Allow-Origin", "*") ∈ r.headers ∧
  ("Access-Control-Allow-Methods", "POST, OPTIONS") ∈ r.headers ∧
  ("Access-Control-Allow-Headers", "Content-Type") ∈ r.headers

/-- Concrete capabilities used to exercise the handlers on closed inputs:
bitmaps are byte lists, `imageOpen` accepts everything, `remove` and `savePNG`
are identities. -/
def idCaps : BgCaps (List Nat) :=
  { imageOpen := fun bs => .ok bs, remove := id, savePNG := fun bs => bs }

/-- Spec wording of claim C2: the substring of a string that follows its first
comma. -/
def afterFirstComma (cs : List Char) : List Char := (cs.dropWhile (· != ',')).tail

/-- The second comma-separated field of a string: the maximal comma-free
substring immediately following the first comma. -/
def secondField (cs : List Char) : List Char := (afterFirstComma cs).takeWhile (· != ',')

/-- The serverless endpoint at transport level.  `handler.do_POST` of
`api/remove_bg.py` reads `Content-Length` and the raw body and calls
`json.loads` on it; it never inspects the `Content-Type` header, so its answer
depends only on the `json.loads` outcome of the raw body (`jsonLoads`), which
this wrapper passes through while discarding `contentType`. -/
def remove_bg.handle {Img : Type} (caps : BgCaps Img) (rembg_available : Bool)
    (contentType : String) (jsonLoads : Except String JVal) : HttpResponse :=
  remove_bg.do_POST caps rembg_available jsonLoads

/-- Flask's `request.get_json()` as `local_bg_server.py` calls it, modelled
from the framework's documented behavior (Flask ≥ 2.1, with `debug=True` as
the repository runs it), parameterized by the `json.loads` outcome of the raw
body.  A request whose `Content-Type` mimetype is not JSON raises
`UnsupportedMediaType` without attempting to parse; a JSON-typed body that
fails to parse raises `BadRequest` wrapping the decode message; otherwise the
parsed value is returned.  The raised exceptions (modelled as `Except.error
str(e)`) are what the handler's `except Exception` catches. -/
def local_bg_server.get_json (contentType : String)
    (jsonLoads : Except String JVal) : Except String JVal :=
  if contentType == "application/json" || "+json".data.isSuffixOf contentType.data then
    match jsonLoads with
    | .ok v => .ok v
    | .error e => .error ("400 Bad Request: Failed to decode JSON object: " ++ e)
  else
    .error ("415 Unsupported Media Type: Did not attempt to load JSON data " ++
      "because the request Content-Type was not 'application/json'.")

/-- The local mirror endpoint at transport level: the `POST` branch of
`remove_background` consumes `request.get_json()` of the incoming request. -/
def local_bg_server.handle {Img : Type} (caps : BgCaps Img)
    (contentType : String) (jsonLoads : Except String JVal) : HttpResponse :=
  local_bg_server.remove_background caps .POST
    (local_bg_server.get_json contentType jsonLoads)

theorem splitComma_ne_nil (cs : List Char) : splitComma cs ≠ [] := by
  cases cs with
  | nil => simp [splitComma]
  | cons c rest =>
    simp only [splitComma]
    by_cases h : c = ','
    · simp [h]
    · simp only [if_neg h]
      cases hs : splitComma rest <;> simp

theorem splitComma_getD_zero (cs : List Char) :
    (splitComma cs).getD 0 [] = cs.takeWhile (· != ',') := by
  induction cs with
  | nil => rfl
  | cons c rest ih =>
    by_cases h : c = ','
    · subst h
      simp [splitComma, List.takeWhile]
    · simp only [splitComma, if_neg h]
      cases hs : splitComma rest with
      | nil => exact absurd hs (splitComma_ne_nil rest)
      | cons g gs =>
        rw [hs] at ih
        simp only [List.getD_cons_zero] at ih
        have hcb : (c != ',') = true := by simp [h]
        simp [List.takeWhile_cons, hcb, ih]

theorem pyStripL_eq_secondField (cs : List Char) (h : cs.contains ',' = true) :
    pyStripL cs = secondField cs := by
  induction cs with
  | nil => simp [List.contains] at h
  | cons c rest ih =>
    by_cases hc : c = ','
    · subst hc
      simp only [pyStripL, h, if_pos, splitComma, if_pos rfl]
      cases hs : splitComma rest with
      | nil => exact absurd hs (splitComma_ne_nil rest)
      | cons g gs =>
        have h0 := splitComma_getD_zero rest
        rw [hs] at h0
        simp only [List.getD_cons_zero] at h0
        simp [secondField, afterFirstComma, List.dropWhile_cons, h0]
    · have hrest : rest.contains ',' = true := by
        rw [List.contains_cons] at h
        rcases Bool.or_eq_true_iff.mp h with h1 | h1
        · exact absurd (beq_iff_eq.mp h1).symm hc
        · exact h1
      have hafter : secondField (c :: rest) = secondField rest := by
        simp [secondField, afterFirstComma, List.dropWhile_cons, hc]
      rw [hafter, ← ih hrest]
      simp only [pyStripL, h, hrest, if_pos, splitComma, if_neg hc]
      cases hs : splitComma rest with
      | nil => exact absurd hs (splitComma_ne_nil rest)
      | cons g gs => simp [hs]

/-- Claim C2 (amended): for every `imageData` string, the background-removal
handlers pass to `base64.b64decode` exactly the second comma-separated field of
the string — the maximal comma-free substring immediately following the first
comma — when the string contains a comma, and the whole string otherwise.
(`secondField` is written from the amended wording, independently of the
`split(',')[1]` in the code.) -/
theorem remove_bg_decodes_second_comma_field (s : String) :
    stripAndDecode (.str s) =
      b64decode (String.mk (if s.data.contains ',' then secondField s.data else s.data)) := by
  show b64decode (String.mk (pyStripL s.data)) = _
  cases h : s.data.contains ','
  · have hne : ¬ (s.data.contains ',' = true) := by rw [h]; simp
    have hL : pyStripL s.data = s.data := if_neg hne
    rw [hL]
    simp
  · rw [pyStripL_eq_secondField s.data h]
    simp

/-- Claim C2, counterexample: on `"x,QUJD,RUZH"` the handler decodes the field
`"QUJD"` between the first and second commas, not the substring `"QUJD,RUZH"`
that follows the first comma; the two decode to different bytes, so the claim
as stated is false. -/
theorem remove_bg_strip_counterexample :
    pyStrip "x,QUJD,RUZH" = "QUJD" ∧
    String.mk (afterFirstComma "x,QUJD,RUZH".data) = "QUJD,RUZH" ∧
    stripAndDecode (.str "x,QUJD,RUZH") = .ok [65, 66, 67] ∧
    b64decode "QUJD,RUZH" = .ok [65, 66, 67, 69, 70, 71] ∧
    ([65, 66, 67] : List Nat) ≠ [65, 66, 67, 69, 70, 71] :=
  ⟨rfl, rfl, rfl, rfl, by decide⟩

/-- Claim C9: with the process-wide `REMBG_AVAILABLE` flag false, every `POST`
to the serverless background-removal endpoint is answered
`500 / success:false / "rembg package not available"`.  The right-hand side
mentions neither `body` nor `caps`, so the response is produced before the
request body is consulted and without invoking any image capability. -/
theorem remove_bg_unavailable_500 {Img : Type} (caps : BgCaps Img)
    (body : Except String JVal) :
    remove_bg.do_POST caps false body = send_error 500 "rembg package not available" := rfl

/-- Claim C6: every response the serverless handlers produce — any `POST`
outcome of either endpoint and both `OPTIONS` preflights — carries the three
required CORS headers. -/
theorem serverless_responses_carry_cors {Img : Type} (caps : BgCaps Img)
    (rembg_available : Bool) (body glbBody : Except String JVal) :
    corsOk (remove_bg.do_POST caps rembg_available body) ∧
    corsOk remove_bg.do_OPTIONS ∧
    corsOk (images_to_glb.do_POST glbBody) ∧
    corsOk images_to_glb.do_OPTIONS := by
  refine ⟨?_, ?_, ?_, ?_⟩ <;>
    simp [corsOk, remove_bg.do_POST, images_to_glb.do_POST, remove_bg.do_OPTIONS,
      images_to_glb.do_OPTIONS, send_response, send_cors_headers]

/-- Claim C5, counterexample: a `POST` to the 3D-conversion endpoint whose body
is not valid JSON makes `json.loads` raise, and the handler answers 500, not
501 — so "regardless of the request body → 501" is false. -/
theorem images_to_glb_bad_body_counterexample :
    (images_to_glb.do_POST (.error "Expecting value: line 1 column 1 (char 0)")).status =
      some 500 ∧
    (images_to_glb.do_POST (.error "Expecting value: line 1 column 1 (char 0)")).status ≠
      some 501 ∧
    respField (images_to_glb.do_POST (.error "Expecting value: line 1 column 1 (char 0)"))
      "success" = some (JVal.bool false) :=
  ⟨rfl, by decide, rfl⟩

/-- Claim C5 (amended): a `POST` to the 3D-conversion endpoint whose body is
read and parses as JSON — any JSON — is answered with status 501 and
`{success: false, error: "Not implemented", message: <guidance>}`; a body that
fails to read or parse is answered 500 with `success: false`. -/
theorem images_to_glb_post_contract (j : JVal) (e : String) :
    images_to_glb.do_POST (.ok j) = send_response 501 (JVal.obj
      [("success", JVal.bool false),
       ("error", JVal.str "Not implemented"),
       ("message", JVal.str "TRELLIS integration coming soon. Use direct GLB upload for now.")]) ∧
    (images_to_glb.do_POST (.error e)).status = some 500 ∧
    respField (images_to_glb.do_POST (.error e)) "success" = some (JVal.bool false) :=
  ⟨rfl, rfl, rfl⟩

/-- Claim C3, counterexample: the JSON body `null` contains no key
`'imageData'`, yet the handler answers 500, not 400: `'imageData' not in data`
raises a `TypeError` on `None`, which the catch-all turns into a 500. -/
theorem remove_bg_null_body_counterexample :
    (remove_bg.do_POST idCaps true (.ok JVal.null)).status = some 500 ∧
    (remove_bg.do_POST idCaps true (.ok JVal.null)).status ≠ some 400 ∧
    respField (remove_bg.do_POST idCaps true (.ok JVal.null)) "success" =
      some (JVal.bool false) :=
  ⟨rfl, by decide, rfl⟩

/-- Claim C3 (amended): a `POST` to the background-removal endpoint whose body
is a valid JSON object without the key `'imageData'` is answered 400 with
`success: false` and the fixed error message; the right-hand side does not
mention `caps`, so no image capability is invoked. -/
theorem remove_bg_missing_key_400 {Img : Type} (caps : BgCaps Img)
    (kvs : List (String × JVal)) (hmiss : dictLookup kvs "imageData" = none) :
    remove_bg.do_POST caps true (.ok (.obj kvs)) =
      send_error 400 "Missing imageData in request" := by
  have h1 : pyContains "imageData" (JVal.obj kvs) = .ok false := by
    simp [pyContains, hmiss]
  simp [remove_bg.do_POST, remove_bg.do_POST_core, h1, send_error, send_response]

/-- Witness for `remove_bg_missing_key_400`: the empty JSON object. -/
theorem remove_bg_missing_key_400_witness :
    dictLookup [] "imageData" = none ∧
    remove_bg.do_POST idCaps true (.ok (.obj [])) =
      send_error 400 "Missing imageData in request" :=
  ⟨rfl, remove_bg_missing_key_400 idCaps [] rfl⟩

/-- Claim C1: a `POST` whose body is a JSON object whose `'imageData'` is a
string that (after the prefix strip) base64-decodes, and whose bytes open as an
image, is answered with status 200 and a body whose `success` is `true`, whose
`processedImageData` is `"data:image/png;base64,"` followed by the base64
encoding of the PNG serialization of the background-removal output on the
decoded image, and whose `message` is the fixed success message. -/
theorem remove_bg_success_response {Img : Type} (caps : BgCaps Img)
    (kvs : List (String × JVal)) (s : String) (image_bytes : List Nat) (img : Img)
    (hkey : dictLookup kvs "imageData" = some (.str s))
    (hdecode : b64decode (pyStrip s) = .ok image_bytes)
    (hopen : caps.imageOpen image_bytes = .ok img) :
    (remove_bg.do_POST caps true (.ok (.obj kvs))).status = some 200 ∧
    respField (remove_bg.do_POST caps true (.ok (.obj kvs))) "success" =
      some (JVal.bool true) ∧
    respField (remove_bg.do_POST caps true (.ok (.obj kvs))) "processedImageData" =
      some (JVal.str ("data:image/png;base64," ++
        b64encode (caps.savePNG (caps.remove img)))) ∧
    respField (remove_bg.do_POST caps true (.ok (.obj kvs))) "message" =
      some (JVal.str "Background removed successfully") := by
  have h1 : pyContains "imageData" (JVal.obj kvs) = .ok true := by
    simp [pyContains, hkey]
  have h2 : pyGetItem (JVal.obj kvs) "imageData" = .ok (.str s) := by
    simp [pyGetItem, hkey]
  have h3 : stripAndDecode (.str s) = .ok image_bytes := hdecode
  have hcore : remove_bg.do_POST_core caps true (.ok (.obj kvs)) =
      (200, JVal.obj
        [("success", JVal.bool true),
         ("processedImageData", JVal.str ("data:image/png;base64," ++
            b64encode (caps.savePNG (caps.remove img)))),
         ("message", JVal.str "Background removed successfully")]) := by
    simp [remove_bg.do_POST_core, h1, h2, h3, hopen]
  refine ⟨?_, ?_, ?_, ?_⟩ <;>
    simp [remove_bg.do_POST, hcore, send_response, respField, dictLookup]

/-- Witness for `remove_bg_success_response`: a data-URI-prefixed `imageData`
decoding to the bytes `"ABC"`, with the identity capabilities. -/
theorem remove_bg_success_response_witness :
    dictLookup [("imageData", JVal.str "data:image/png;base64,QUJD")] "imageData" =
      some (.str "data:image/png;base64,QUJD") ∧
    b64decode (pyStrip "data:image/png;base64,QUJD") = .ok [65, 66, 67] ∧
    idCaps.imageOpen [65, 66, 67] = .ok [65, 66, 67] ∧
    ((remove_bg.do_POST idCaps true
        (.ok (.obj [("imageData", JVal.str "data:image/png;base64,QUJD")]))).status =
      some 200 ∧
     respField (remove_bg.do_POST idCaps true
        (.ok (.obj [("imageData", JVal.str "data:image/png;base64,QUJD")]))) "success" =
      some (JVal.bool true) ∧
     respField (remove_bg.do_POST idCaps true
        (.ok (.obj [("imageData", JVal.str "data:image/png;base64,QUJD")])))
        "processedImageData" =
      some (JVal.str ("data:image/png;base64," ++
        b64encode (idCaps.savePNG (idCaps.remove [65, 66, 67])))) ∧
     respField (remove_bg.do_POST idCaps true
        (.ok (.obj [("imageData", JVal.str "data:image/png;base64,QUJD")]))) "message" =
      some (JVal.str "Background removed successfully")) :=
  ⟨rfl, rfl, rfl,
    remove_bg_success_response idCaps [("imageData", JVal.str "data:image/png;base64,QUJD")]
      "data:image/png;base64,QUJD" [65, 66, 67] [65, 66, 67] rfl rfl rfl⟩

/-- Claim C4: a `POST` whose JSON object body holds an `'imageData'` string
whose stripped payload fails to base64-decode, or decodes to bytes that
`Image.open` rejects, is answered 500 with `success: false` — never 200. -/
theorem remove_bg_undecodable_500 {Img : Type} (caps : BgCaps Img)
    (kvs : List (String × JVal)) (s : String)
    (hkey : dictLookup kvs "imageData" = some (.str s))
    (hbad : (∃ e, b64decode (pyStrip s) = .error e) ∨
            (∃ bs e, b64decode (pyStrip s) = .ok bs ∧ caps.imageOpen bs = .error e)) :
    (remove_bg.do_POST caps true (.ok (.obj kvs))).status = some 500 ∧
    respField (remove_bg.do_POST caps true (.ok (.obj kvs))) "success" =
      some (JVal.bool false) ∧
    (remove_bg.do_POST caps true (.ok (.obj kvs))).status ≠ some 200 := by
  have h1 : pyContains "imageData" (JVal.obj kvs) = .ok true := by
    simp [pyContains, hkey]
  have h2 : pyGetItem (JVal.obj kvs) "imageData" = .ok (.str s) := by
    simp [pyGetItem, hkey]
  rcases hbad with ⟨e, he⟩ | ⟨bs, e, hbs, he⟩
  · have h3 : stripAndDecode (.str s) = .error e := he
    have hcore : remove_bg.do_POST_core caps true (.ok (.obj kvs)) =
        (500, errorBody ("Processing failed: " ++ e)) := by
      simp [remove_bg.do_POST_core, h1, h2, h3]
    refine ⟨?_, ?_, ?_⟩ <;>
      simp [remove_bg.do_POST, hcore, send_response, respField, dictLookup, errorBody]
  · have h3 : stripAndDecode (.str s) = .ok bs := hbs
    have hcore : remove_bg.do_POST_core caps true (.ok (.obj kvs)) =
        (500, errorBody ("Processing failed: " ++ e)) := by
      simp [remove_bg.do_POST_core, h1, h2, h3, he]
    refine ⟨?_, ?_, ?_⟩ <;>
      simp [remove_bg.do_POST, hcore, send_response, respField, dictLookup, errorBody]

/-- Witness for `remove_bg_undecodable_500`: the two-character payload `"QQ"`,
which `b64decode` rejects with an incorrect-padding error. -/
theorem remove_bg_undecodable_500_witness :
    dictLookup [("imageData", JVal.str "QQ")] "imageData" = some (.str "QQ") ∧
    b64decode (pyStrip "QQ") = .error "Incorrect padding" ∧
    ((remove_bg.do_POST idCaps true (.ok (.obj [("imageData", JVal.str "QQ")]))).status =
      some 500 ∧
     respField (remove_bg.do_POST idCaps true (.ok (.obj [("imageData", JVal.str "QQ")])))
        "success" = some (JVal.bool false) ∧
     (remove_bg.do_POST idCaps true (.ok (.obj [("imageData", JVal.str "QQ")]))).status ≠
      some 200) :=
  ⟨rfl, rfl,
    remove_bg_undecodable_500 idCaps [("imageData", JVal.str "QQ")] "QQ" rfl
      (Or.inl ⟨"Incorrect padding", rfl⟩)⟩

/-- Claim C10: a `POST` whose JSON object body has the key `'imageData'` bound
to a non-string value is answered 500 with `success: false`, not 400: one of
the `','` `in`, `.split`, or `b64decode` steps raises a `TypeError` or
`AttributeError` that the catch-all converts to a 500. -/
theorem remove_bg_nonstring_500 {Img : Type} (caps : BgCaps Img)
    (kvs : List (String × JVal)) (v : JVal)
    (hkey : dictLookup kvs "imageData" = some v) (hns : v.isStr = false) :
    (remove_bg.do_POST caps true (.ok (.obj kvs))).status = some 500 ∧
    respField (remove_bg.do_POST caps true (.ok (.obj kvs))) "success" =
      some (JVal.bool false) ∧
    (remove_bg.do_POST caps true (.ok (.obj kvs))).status ≠ some 400 := by
  have h1 : pyContains "imageData" (JVal.obj kvs) = .ok true := by
    simp [pyContains, hkey]
  have h2 : pyGetItem (JVal.obj kvs) "imageData" = .ok v := by
    simp [pyGetItem, hkey]
  obtain ⟨e, he⟩ : ∃ e, stripAndDecode v = .error e := by
    cases v with
    | str s => simp [JVal.isStr] at hns
    | null => exact ⟨_, rfl⟩
    | bool b => exact ⟨_, rfl⟩
    | num n => exact ⟨_, rfl⟩
    | arr xs =>
      cases hx : listHasStr xs ","
      · exact ⟨"argument should be a bytes-like object or ASCII string, not 'list'",
          by simp [stripAndDecode, hx]⟩
      · exact ⟨"'list' object has no attribute 'split'", by simp [stripAndDecode, hx]⟩
    | obj kvs2 =>
      cases hx : (dictLookup kvs2 ",").isSome
      · exact ⟨"argument should be a bytes-like object or ASCII string, not 'dict'",
          by simp [stripAndDecode, hx]⟩
      · exact ⟨"'dict' object has no attribute 'split'", by simp [stripAndDecode, hx]⟩
  have hcore : remove_bg.do_POST_core caps true (.ok (.obj kvs)) =
      (500, errorBody ("Processing failed: " ++ e)) := by
    simp [remove_bg.do_POST_core, h1, h2, he]
  refine ⟨?_, ?_, ?_⟩ <;>
    simp [remove_bg.do_POST, hcore, send_response, respField, dictLookup, errorBody]

/-- Witness for `remove_bg_nonstring_500`: `imageData` bound to the number 7. -/
theorem remove_bg_nonstring_500_witness :
    dictLookup [("imageData", JVal.num 7)] "imageData" = some (JVal.num 7) ∧
    (JVal.num 7).isStr = false ∧
    ((remove_bg.do_POST idCaps true (.ok (.obj [("imageData", JVal.num 7)]))).status =
      some 500 ∧
     respField (remove_bg.do_POST idCaps true (.ok (.obj [("imageData", JVal.num 7)])))
        "success" = some (JVal.bool false) ∧
     (remove_bg.do_POST idCaps true (.ok (.obj [("imageData", JVal.num 7)]))).status ≠
      some 400) :=
  ⟨rfl, rfl, remove_bg_nonstring_500 idCaps [("imageData", JVal.num 7)] (JVal.num 7) rfl rfl⟩

/-- Claim C7: the `OPTIONS` handlers of the two serverless endpoints send the
CORS headers and no body but never call `send_response`, so they set no status
code at all — in particular not 200 or 204; the local mirror's `OPTIONS`
branch does return status 200 with an empty body.  This evaluates the code at
the claim's input and exhibits the divergence. -/
theorem options_preflight_no_status :
    remove_bg.do_OPTIONS.status = none ∧
    remove_bg.do_OPTIONS.body = none ∧
    corsOk remove_bg.do_OPTIONS ∧
    images_to_glb.do_OPTIONS.status = none ∧
    images_to_glb.do_OPTIONS.body = none ∧
    corsOk images_to_glb.do_OPTIONS ∧
    (local_bg_server.remove_background idCaps .OPTIONS (.ok JVal.null)).status = some 200 ∧
    (local_bg_server.remove_background idCaps .OPTIONS (.ok JVal.null)).body = none := by
  refine ⟨rfl, rfl, ?_, rfl, rfl, ?_, rfl, rfl⟩ <;>
    simp [corsOk, remove_bg.do_OPTIONS, images_to_glb.do_OPTIONS, send_cors_headers]

/-- The `POST` path of the local mirror and the serverless handler agree on
status and JSON body whenever the same parsed-body outcome reaches their
handler code (their cores are line-for-line identical; the core equality below
is definitional).  The endpoints' parse layers differ, so this agreement does
not extend to every raw request — see the C8 theorems. -/
theorem remove_background_core_agreement {Img : Type} (caps : BgCaps Img)
    (body : Except String JVal) :
    (local_bg_server.remove_background caps .POST body).status =
      (remove_bg.do_POST caps true body).status ∧
    (local_bg_server.remove_background caps .POST body).body =
      (remove_bg.do_POST caps true body).body := by
  have hcore : local_bg_server.remove_background_core caps body =
      remove_bg.do_POST_core caps true body := rfl
  constructor <;>
    simp [local_bg_server.remove_background, local_bg_server.jsonify,
      remove_bg.do_POST, send_response, hcore]

/-- Claim C8, counterexample: the two endpoints do not answer every `POST`
request body alike.  The same valid-JSON body sent with `Content-Type:
text/plain` gets 200 from the serverless handler (which never reads
`Content-Type`) but 500 from the local mirror (Flask's `get_json` raises
`UnsupportedMediaType`, caught by the `except` into a 500); and the same
malformed body sent as `application/json` yields different `'error'` strings
(`json.loads`'s message verbatim vs Flask's `BadRequest` wrapping). -/
theorem local_mirror_divergence_counterexample :
    (remove_bg.handle idCaps true "text/plain"
        (.ok (.obj [("imageData", JVal.str "QUJD")]))).status = some 200 ∧
    (local_bg_server.handle idCaps "text/plain"
        (.ok (.obj [("imageData", JVal.str "QUJD")]))).status = some 500 ∧
    (some 200 : Option Nat) ≠ some 500 ∧
    respField (remove_bg.handle idCaps true "application/json"
        (.error "Expecting value: line 1 column 1 (char 0)")) "error" =
      some (JVal.str "Processing failed: Expecting value: line 1 column 1 (char 0)") ∧
    respField (local_bg_server.handle idCaps "application/json"
        (.error "Expecting value: line 1 column 1 (char 0)")) "error" =
      some (JVal.str ("Processing failed: 400 Bad Request: Failed to decode JSON " ++
        "object: Expecting value: line 1 column 1 (char 0)")) ∧
    ("Processing failed: Expecting value: line 1 column 1 (char 0)" : String) ≠
      ("Processing failed: 400 Bad Request: Failed to decode JSON " ++
        "object: Expecting value: line 1 column 1 (char 0)") :=
  ⟨rfl, rfl, by decide, rfl, rfl, by decide⟩

/-- Claim C8 (amended): for every `POST` request with `Content-Type:
application/json` whose body is valid JSON — and the same opaque capabilities —
the local Flask mirror and the serverless handler (with `rembg` available)
answer with the same status code and the same JSON body. -/
theorem local_mirror_matches_serverless_json {Img : Type} (caps : BgCaps Img)
    (j : JVal) :
    (local_bg_server.handle caps "application/json" (.ok j)).status =
      (remove_bg.handle caps true "application/json" (.ok j)).status ∧
    (local_bg_server.handle caps "application/json" (.ok j)).body =
      (remove_bg.handle caps true "application/json" (.ok j)).body :=
  remove_background_core_agreement caps (.ok j)
